import Mathlib

/-!
# Verification of the `pa_proc` accelerometer pipeline

Shallow embedding of the core of `pa_proc` (non-wear detection, signal
reduction, daily aggregation) and proofs about the behaviour of its
functions.  Every definition is translated from the Python source:

* `weartime_choi2011`      from `pa_proc/nonwear.py`
* `weartime_vanhees2013`   from `pa_proc/nonwear.py`
* `calculate_vector_magnitude` (two copies) from `pa_proc/nonwear.py`
  and `pa_proc/helper_functions.py`
* the ENMO / resampling steps from `pa_proc/acc_to_intermediate.py`
* `intermediate_to_daily`  from `pa_proc/intermediate_to_daily.py`

Machine floats are modelled by exact arithmetic (`ℚ`, and `ℝ` where a
square root occurs); NumPy/pandas primitives (`l[a:b]`, `np.std`,
`np.ptp`, `Series.clip`, `groupby(i // k)`, `resample`) are embedded by
small helper functions whose semantics is noted next to each.
-/

namespace PaProc

/-- Python slice `l[a : b]` for natural bounds `0 ≤ a ≤ b` (negative or
reversed bounds never reach the embedded call sites; a reversed slice
yields `[]`, as in Python). -/
def pySlice (a b : ℕ) (l : List α) : List α := (l.drop a).take (b - a)

/-- `(xs > t).sum()` for a NumPy array: the number of entries strictly
greater than `t`. -/
def countGT (t : ℚ) (l : List ℚ) : ℕ := l.countP (fun x => decide (t < x))

/-- NumPy slice assignment `v[s : e] = 0` on a flag vector modelled as a
function from index to value. -/
def zeroSlice (s e : ℕ) (v : ℕ → ℕ) : ℕ → ℕ := fun j => if s ≤ j ∧ j < e then 0 else v j

/-!
## `weartime_choi2011` (`pa_proc/nonwear.py`, lines 51-228)

The scan is a single left-to-right loop carrying the boolean/counter
state of the source; one loop iteration is `choiStep`.  The input `data`
is the one-dimensional count series the source scans (either the chosen
axis or the vector magnitude of the three count axes - both feed the
same loop).
-/

/-- The upstream window `data[paxn + spike_tolerance : paxn + min_window_len + 1]`
(`nonwear.py` line 178). -/
def upstreamWindow (data : List ℚ) (spike_tolerance min_window_len paxn : ℕ) : List ℚ :=
  pySlice (paxn + spike_tolerance) (paxn + min_window_len + 1) data

/-- The downstream window
`data[paxn - min_window_len if paxn - min_window_len > 0 else 0 : paxn - 1]`
(`nonwear.py` line 185).  The scan only evaluates it at `paxn ≥ 1`
(a spike inside a started run), so the natural subtraction `paxn - 1`
matches the Python slice bound. -/
def downstreamWindow (data : List ℚ) (min_window_len paxn : ℕ) : List ℚ :=
  pySlice (if min_window_len < paxn then paxn - min_window_len else 0) (paxn - 1) data

/-- The window-validity check performed at a spike (`nonwear.py` lines
175-189): true when the upstream or the downstream window holds more
than `window_spike_tolerance` epochs with count `> 0`. -/
def window_check (data : List ℚ) (spike_tolerance min_window_len window_spike_tolerance paxn : ℕ) :
    Bool :=
  decide (window_spike_tolerance < countGT 0 (upstreamWindow data spike_tolerance min_window_len paxn))
  || decide (window_spike_tolerance < countGT 0 (downstreamWindow data min_window_len paxn))

/-- The loop state of `weartime_choi2011` (`nonwear.py` lines 118-133). -/
structure ChoiState where
  reset : Bool
  stopped : Bool
  start : Bool
  window_2_invalid : Bool
  strt_nw : ℕ
  end_nw : ℕ
  cnt_non_zero : ℕ
  ranges : List (ℕ × ℕ)
deriving DecidableEq

/-- The initial loop state (`nonwear.py` lines 118-133). -/
def ChoiState.init : ChoiState :=
  ⟨false, false, false, false, 0, 0, 0, []⟩

/-- One iteration of the scan loop of `weartime_choi2011`
(`nonwear.py` lines 140-219), in source order.  Note: the termination
condition of line 203 reads `paxn == len(data -1)` in the source;
`data - 1` is NumPy elementwise subtraction, so `len(data - 1) = len(data)`
and the disjunct is `paxn == data.length`. -/
def choiStep (data : List ℚ) (activity_threshold : ℚ)
    (min_period_len spike_tolerance min_window_len window_spike_tolerance : ℕ)
    (s : ChoiState) (paxn : ℕ) : ChoiState :=
  -- reset counters if reset or stopped (lines 146-154)
  let s := if s.reset || s.stopped then
      { s with strt_nw := 0, end_nw := 0, start := false, reset := false,
               stopped := false, window_2_invalid := false, cnt_non_zero := 0 }
    else s
  let paxinten : ℚ := data.getD paxn 0
  -- the non-wear period starts with a zero count (lines 157-162)
  let s := if paxinten = 0 ∧ s.start = false then { s with strt_nw := paxn, start := true } else s
  if s.start then
    -- spike counter (lines 168-171)
    let s := if activity_threshold < paxinten then { s with cnt_non_zero := s.cnt_non_zero + 1 }
      else s
    -- window validity at a spike (lines 175-193)
    let s := if 0 < paxinten then
        let inv := s.window_2_invalid
          || window_check data spike_tolerance min_window_len window_spike_tolerance paxn
        { s with window_2_invalid := inv, reset := if inv then true else s.reset }
      else s
    -- reset counter if value is "zero" again (lines 199-200)
    let s := if paxinten ≤ activity_threshold then { s with cnt_non_zero := 0 } else s
    -- sequence end check (lines 203-214)
    let s := if s.cnt_non_zero = 3 ∨ s.window_2_invalid ∨ paxn = data.length then
        let s := { s with end_nw := paxn }
        if (pySlice s.strt_nw s.end_nw data).length < min_period_len then { s with reset := true }
        else { s with stopped := true }
      else s
    -- record the range of a stopped sequence (lines 217-219)
    if s.stopped then { s with ranges := s.ranges ++ [(s.strt_nw, s.end_nw)] } else s
  else s

/-- `weartime_choi2011` (`nonwear.py` lines 51-228): run the scan over
all indices and convert the collected ranges into the non-wear vector
(1 = worn, 0 = non-wear), the vector modelled as a function on indices. -/
def weartime_choi2011 (data : List ℚ) (activity_threshold : ℚ)
    (min_period_len spike_tolerance min_window_len window_spike_tolerance : ℕ) : ℕ → ℕ :=
  let final := (List.range data.length).foldl
    (choiStep data activity_threshold min_period_len spike_tolerance min_window_len
      window_spike_tolerance) ChoiState.init
  final.ranges.foldl (fun v r => zeroSlice r.1 r.2 v) (fun _ => 1)

/-!
## `weartime_vanhees2013` (`pa_proc/nonwear.py`, lines 231-323)

The input is the raw triaxial sample stream, one `(y, x, z)` triple per
sample, in g.  `np.std(w, axis=0)` is the population standard deviation
of each column; `np.ptp(w, axis=0)` the per-column value range.
-/

/-- First column of a window (the three columns of the sample array). -/
def col1 (w : List (ℚ × ℚ × ℚ)) : List ℚ := w.map (·.1)

/-- Second column of a window. -/
def col2 (w : List (ℚ × ℚ × ℚ)) : List ℚ := w.map (·.2.1)

/-- Third column of a window. -/
def col3 (w : List (ℚ × ℚ × ℚ)) : List ℚ := w.map (·.2.2)

/-- The arithmetic mean of a column, as `np.std` computes it (the empty
column never reaches the embedded call site). -/
def npMean (l : List ℚ) : ℚ := l.sum / l.length

/-- The population variance of a column (`np.std` squared), in exact
arithmetic. -/
def npVar (l : List ℚ) : ℚ := (l.map (fun x => (x - npMean l) ^ 2)).sum / l.length

/-- `np.std` of a column: the square root of the population variance. -/
noncomputable def npStd (l : List ℚ) : ℝ := Real.sqrt ((npVar l : ℚ) : ℝ)

/-- `np.ptp` of a column: maximum minus minimum. -/
def npPtp (l : List ℚ) : ℚ := l.foldl max (l.headD 0) - l.foldl min (l.headD 0)

open Classical in
/-- `(np.std(w, axis=0) < t).sum()`: how many of the three columns have
standard deviation below `t` (`nonwear.py` lines 304-307); `t` is the
threshold already divided by 1000. -/
noncomputable def stdBelowCount (w : List (ℚ × ℚ × ℚ)) (t : ℚ) : ℕ :=
  (if npStd (col1 w) < (t : ℝ) then 1 else 0)
  + (if npStd (col2 w) < (t : ℝ) then 1 else 0)
  + (if npStd (col3 w) < (t : ℝ) then 1 else 0)

/-- `(np.ptp(w, axis=0) < t).sum()`: how many of the three columns have
value range below `t` (`nonwear.py` lines 314-317). -/
def rangeBelowCount (w : List (ℚ × ℚ × ℚ)) (t : ℚ) : ℕ :=
  (if npPtp (col1 w) < t then 1 else 0)
  + (if npPtp (col2 w) < t then 1 else 0)
  + (if npPtp (col3 w) < t then 1 else 0)

open Classical in
/-- The body of one loop iteration of `weartime_vanhees2013`
(`nonwear.py` lines 303-321): zero the window span when at least
`std_min_num_axes` columns are below the std threshold, then again when
at least `value_range_min_num_axes` columns are below the range
threshold. -/
noncomputable def vhProcessWindow (data : List (ℚ × ℚ × ℚ)) (std_t range_t : ℚ)
    (std_min_num_axes value_range_min_num_axes : ℕ) (s e : ℕ) (v : ℕ → ℕ) : ℕ → ℕ :=
  let subset_data := pySlice s e data
  let v := if std_min_num_axes ≤ stdBelowCount subset_data std_t then zeroSlice s e v else v
  if value_range_min_num_axes ≤ rangeBelowCount subset_data range_t then zeroSlice s e v else v

/-- The loop of `weartime_vanhees2013` (`nonwear.py` lines 288-321) over
the list of window start indices: `break` (and return the vector built
so far) as soon as a full window no longer fits (lines 300-301). -/
noncomputable def vhLoop (data : List (ℚ × ℚ × ℚ)) (wnd : ℕ) (std_t range_t : ℚ)
    (std_min_num_axes value_range_min_num_axes : ℕ) : List ℕ → (ℕ → ℕ) → (ℕ → ℕ)
  | [], v => v
  | i :: rest, v =>
    if (pySlice i (i + wnd) data).length < wnd then v
    else vhLoop data wnd std_t range_t std_min_num_axes value_range_min_num_axes rest
      (vhProcessWindow data std_t range_t std_min_num_axes value_range_min_num_axes i (i + wnd) v)

/-- Python `range(0, n, step)`.  `step = 0` raises `ValueError` in Python
and is modelled as the empty start list; the embedded call sites always
pass a positive step. -/
def pythonRange (n step : ℕ) : List ℕ :=
  if step = 0 then [] else List.range' 0 ((n + step - 1) / step) step

/-- `weartime_vanhees2013` (`nonwear.py` lines 231-323).  Parameters are
the source's: sample rate `hz`, window and overlap in minutes, the two
mg thresholds (divided by 1000 inside, lines 279-281), and the two
minimum axis counts.  Result: the non-wear vector (1 = worn,
0 = non-wear), as a function on sample indices. -/
noncomputable def weartime_vanhees2013 (data : List (ℚ × ℚ × ℚ)) (hz : ℕ)
    (min_non_wear_time_window window_overlap : ℕ)
    (std_mg_threshold value_range_mg_threshold : ℚ)
    (std_min_num_axes value_range_min_num_axes : ℕ) : ℕ → ℕ :=
  let num_samples_per_min := hz * 60
  let wnd := min_non_wear_time_window * num_samples_per_min
  let ovl := window_overlap * num_samples_per_min
  vhLoop data wnd (std_mg_threshold / 1000) (value_range_mg_threshold / 1000)
    std_min_num_axes value_range_min_num_axes (pythonRange data.length ovl) (fun _ => 1)

/-!
## The two copies of `calculate_vector_magnitude`

One copy lives in `pa_proc/nonwear.py` (lines 3-49), the other in
`pa_proc/helper_functions.py` (lines 7-61).  Both compute the per-row
Euclidean norm, optionally subtract one, optionally clip negatives to
zero, and reshape to an `N × 1` array (modelled as the list of the `N`
values).
-/

/-- `calculate_vector_magnitude` from `pa_proc/nonwear.py` lines 3-49.
`vector_magnitude.clip(min=0)` is NumPy elementwise clipping from below
at 0. -/
noncomputable def calculate_vector_magnitude (data : List (ℝ × ℝ × ℝ))
    (minus_one round_negative_to_zero : Bool) : List ℝ :=
  let vector_magnitude := data.map fun r => Real.sqrt (r.1 ^ 2 + r.2.1 ^ 2 + r.2.2 ^ 2)
  let vector_magnitude := if minus_one then vector_magnitude.map (· - 1) else vector_magnitude
  if round_negative_to_zero then vector_magnitude.map (fun x => max x 0) else vector_magnitude

/-- `calculate_vector_magnitude` from `pa_proc/helper_functions.py` lines
7-61.  Identical to the `nonwear.py` copy except that its body runs in a
`try` block and its clipping step is `vector_magnitude.clip(lower=0)`:
`numpy.ndarray.clip` has no `lower` keyword (its parameters are `min` and
`max`), so that call raises `TypeError`; the `except` handler logs the
exception and calls `exit(1)` instead of returning — modelled as an
error result. -/
noncomputable def helper_calculate_vector_magnitude (data : List (ℝ × ℝ × ℝ))
    (minus_one round_negative_to_zero : Bool) : Except String (List ℝ) :=
  let vector_magnitude := data.map fun r => Real.sqrt (r.1 ^ 2 + r.2.1 ^ 2 + r.2.2 ^ 2)
  let vector_magnitude := if minus_one then vector_magnitude.map (· - 1) else vector_magnitude
  if round_negative_to_zero then
    Except.error "TypeError: clip received an invalid keyword argument, process exited with 1"
  else Except.ok vector_magnitude

/-!
## ENMO and the wear-flag resampling chain
(`pa_proc/acc_to_intermediate.py`, lines 193-208)
-/

/-- `Series.clip(lower = c)` on one value (pandas clips from below). -/
noncomputable def clipLower (c x : ℝ) : ℝ := if x < c then c else x

/-- The ENMO of one sample (`acc_to_intermediate.py` lines 193-196):
`sqrt(v² + ml² + ap²) - 1`, clipped below at 0, times 1000. -/
noncomputable def enmoSample (v ml ap : ℝ) : ℝ :=
  clipLower 0 (Real.sqrt (v ^ 2 + ml ^ 2 + ap ^ 2) - 1) * 1000

/-- The ENMO series over the normalized sample stream. -/
noncomputable def enmoSeries (ts : List (ℝ × ℝ × ℝ)) : List ℝ :=
  ts.map fun r => enmoSample r.1 r.2.1 r.2.2

/-- Consecutive chunks of size `n` of a list (the last chunk may be
shorter).  This is how `groupby(index // n)` buckets a series indexed by
`0, 1, 2, …`, and how `resample` buckets a series whose index starts on
a bucket boundary with one entry per time unit.  `n = 0` never reaches
the embedded call sites. -/
def chunksOf : (n : ℕ) → List α → List (List α)
  | _, [] => []
  | 0, _ :: _ => []
  | n + 1, x :: xs => (x :: xs).take (n + 1) :: chunksOf (n + 1) ((x :: xs).drop (n + 1))
termination_by _ l => l.length
decreasing_by
  simp only [List.drop_succ_cons, List.length_drop, List.length_cons]
  omega

/-- pandas `.min()` of one 1-second group of per-sample wear flags
(`acc_to_intermediate.py` line 200).  Groups are nonempty; the default
for the unreachable empty group is the worn value 1. -/
def groupMin : List ℕ → ℕ
  | [] => 1
  | x :: xs => xs.foldl min x

/-- The 1 Hz van-Hees wear flag (`acc_to_intermediate.py` lines
199-200): minimum of each 1-second bucket of `hz` per-sample flags,
bucketed by `index // hz`. -/
def wear_vanhees_1s (hz : ℕ) (flags : List ℕ) : List ℕ :=
  (chunksOf hz flags).map groupMin

/-- Mean of a bucket followed by `np.floor`
(`acc_to_intermediate.py` lines 207-208). -/
def floorMean (l : List ℕ) : ℤ := ⌊(l.sum : ℚ) / (l.length : ℚ)⌋

/-- The 60 s van-Hees wear flag (`acc_to_intermediate.py` lines
207-208): the 1 Hz series starts on a minute boundary, so
`resample('60s').mean()` averages consecutive 60-element chunks, and
`np.floor` is applied to each mean. -/
def wear_vanhees_60s (hz : ℕ) (flags : List ℕ) : List ℤ :=
  (chunksOf 60 (wear_vanhees_1s hz flags)).map floorMean

/-!
## `intermediate_to_daily` (`pa_proc/intermediate_to_daily.py`)

One record of the 60-second intermediate table is modelled by its day
(as an abstract day identifier), its hour of day, the two wear flags and
the two intensity metrics.  A 3-element cutpoint list is modelled as
`some` triple, the empty default list as `none` (the source tests
`if cutpoints:`).
-/

/-- One row of the 60-second intermediate table. -/
structure MinuteRow where
  day : ℕ
  hour : ℕ
  wear_choi : ℕ
  wear_vanhees : ℕ
  counts_vm : ℚ
  enmo : ℚ
deriving DecidableEq

/-- `day_data`: the rows of one calendar day (`intermediate_to_daily.py`
line 55). -/
def day_data (rows : List MinuteRow) (d : ℕ) : List MinuteRow :=
  rows.filter fun r => r.day == d

/-- `day_data_waking`: the day's rows with
`hour ∈ [waking_hours[0], waking_hours[1])` (lines 58-59). -/
def day_data_waking (rows : List MinuteRow) (d : ℕ) (waking_hours : ℕ × ℕ) : List MinuteRow :=
  (day_data rows d).filter fun r => waking_hours.1 ≤ r.hour && r.hour < waking_hours.2

/-- `np.sum(day_data.wear_choi == 1)` (line 62). -/
def weartime_choi (rows : List MinuteRow) (d : ℕ) : ℕ :=
  (day_data rows d).countP fun r => r.wear_choi == 1

/-- `np.sum(day_data.wear_vanhees == 1)` (line 63). -/
def weartime_vanhees (rows : List MinuteRow) (d : ℕ) : ℕ :=
  (day_data rows d).countP fun r => r.wear_vanhees == 1

/-- `np.sum(day_data_waking.wear_choi == 1)` (line 65). -/
def weartime_choi_waking (rows : List MinuteRow) (d : ℕ) (waking_hours : ℕ × ℕ) : ℕ :=
  (day_data_waking rows d waking_hours).countP fun r => r.wear_choi == 1

/-- `np.sum(day_data_waking.wear_vanhees == 1)` (line 66). -/
def weartime_vanhees_waking (rows : List MinuteRow) (d : ℕ) (waking_hours : ℕ × ℕ) : ℕ :=
  (day_data_waking rows d waking_hours).countP fun r => r.wear_vanhees == 1

/-- `day_data_wear_choi`: the day's rows with `wear_choi == 1` (line 69). -/
def day_data_wear_choi (rows : List MinuteRow) (d : ℕ) : List MinuteRow :=
  (day_data rows d).filter fun r => r.wear_choi == 1

/-- `day_data_wear_vanhees`: the day's rows with `wear_vanhees == 1` (line 70). -/
def day_data_wear_vanhees (rows : List MinuteRow) (d : ℕ) : List MinuteRow :=
  (day_data rows d).filter fun r => r.wear_vanhees == 1

/-- `lpa_counts` (lines 74-75): worn minutes with
`cutpoints[0] < counts_vm <= cutpoints[1]`. -/
def lpa_counts (rows : List MinuteRow) (d : ℕ) (c : ℚ × ℚ × ℚ) : ℕ :=
  (day_data_wear_choi rows d).countP fun r => decide (c.1 < r.counts_vm ∧ r.counts_vm ≤ c.2.1)

/-- `mpa_counts` (lines 76-77): worn minutes with
`cutpoints[1] < counts_vm <= cutpoints[2]`. -/
def mpa_counts (rows : List MinuteRow) (d : ℕ) (c : ℚ × ℚ × ℚ) : ℕ :=
  (day_data_wear_choi rows d).countP fun r => decide (c.2.1 < r.counts_vm ∧ r.counts_vm ≤ c.2.2)

/-- `mvpa_counts` (line 78): worn minutes with `counts_vm > cutpoints[1]`. -/
def mvpa_counts (rows : List MinuteRow) (d : ℕ) (c : ℚ × ℚ × ℚ) : ℕ :=
  (day_data_wear_choi rows d).countP fun r => decide (c.2.1 < r.counts_vm)

/-- `vpa_counts` (line 79): worn minutes with `counts_vm > cutpoints[2]`. -/
def vpa_counts (rows : List MinuteRow) (d : ℕ) (c : ℚ × ℚ × ℚ) : ℕ :=
  (day_data_wear_choi rows d).countP fun r => decide (c.2.2 < r.counts_vm)

/-- `lpa_enmo` (lines 82-83): worn minutes with
`cutpoints[0] < enmo` and `enmo < cutpoints[1]` (strict on both sides). -/
def lpa_enmo (rows : List MinuteRow) (d : ℕ) (c : ℚ × ℚ × ℚ) : ℕ :=
  (day_data_wear_vanhees rows d).countP fun r => decide (c.1 < r.enmo ∧ r.enmo < c.2.1)

/-- `mpa_enmo` (lines 84-85): worn minutes with
`cutpoints[1] < enmo` and `enmo < cutpoints[2]` (strict on both sides). -/
def mpa_enmo (rows : List MinuteRow) (d : ℕ) (c : ℚ × ℚ × ℚ) : ℕ :=
  (day_data_wear_vanhees rows d).countP fun r => decide (c.2.1 < r.enmo ∧ r.enmo < c.2.2)

/-- `mvpa_enmo` (line 86): worn minutes with `enmo >= cutpoints[1]`. -/
def mvpa_enmo (rows : List MinuteRow) (d : ℕ) (c : ℚ × ℚ × ℚ) : ℕ :=
  (day_data_wear_vanhees rows d).countP fun r => decide (c.2.1 ≤ r.enmo)

/-- `vpa_enmo` (line 87): worn minutes with `enmo >= cutpoints[2]`. -/
def vpa_enmo (rows : List MinuteRow) (d : ℕ) (c : ℚ × ℚ × ℚ) : ℕ :=
  (day_data_wear_vanhees rows d).countP fun r => decide (c.2.2 ≤ r.enmo)

/-- One row of the daily summary (`intermediate_to_daily.py` lines
61-87).  Band columns are present only when the corresponding cutpoint
list was supplied. -/
structure DailyRow where
  weartime_choi : ℕ
  weartime_vanhees : ℕ
  weartime_choi_waking : ℕ
  weartime_vanhees_waking : ℕ
  lpa_counts : Option ℕ
  mpa_counts : Option ℕ
  mvpa_counts : Option ℕ
  vpa_counts : Option ℕ
  lpa_enmo : Option ℕ
  mpa_enmo : Option ℕ
  mvpa_enmo : Option ℕ
  vpa_enmo : Option ℕ
deriving DecidableEq

/-- The daily summary values of one day (`intermediate_to_daily.py`
lines 52-87). -/
def dailyRow (rows : List MinuteRow) (d : ℕ) (cutpoints_counts cutpoints_enmo : Option (ℚ × ℚ × ℚ))
    (waking_hours : ℕ × ℕ) : DailyRow where
  weartime_choi := weartime_choi rows d
  weartime_vanhees := weartime_vanhees rows d
  weartime_choi_waking := weartime_choi_waking rows d waking_hours
  weartime_vanhees_waking := weartime_vanhees_waking rows d waking_hours
  lpa_counts := cutpoints_counts.map fun c => lpa_counts rows d c
  mpa_counts := cutpoints_counts.map fun c => mpa_counts rows d c
  mvpa_counts := cutpoints_counts.map fun c => mvpa_counts rows d c
  vpa_counts := cutpoints_counts.map fun c => vpa_counts rows d c
  lpa_enmo := cutpoints_enmo.map fun c => lpa_enmo rows d c
  mpa_enmo := cutpoints_enmo.map fun c => mpa_enmo rows d c
  mvpa_enmo := cutpoints_enmo.map fun c => mvpa_enmo rows d c
  vpa_enmo := cutpoints_enmo.map fun c => vpa_enmo rows d c

/-- `intermediate_to_daily` (`intermediate_to_daily.py` lines 6-89):
one summary row per distinct day appearing in the input, in order of
first appearance.  No validation of the configuration is performed by
the source. -/
def intermediate_to_daily (rows : List MinuteRow)
    (cutpoints_counts cutpoints_enmo : Option (ℚ × ℚ × ℚ)) (waking_hours : ℕ × ℕ) :
    List (ℕ × DailyRow) :=
  ((rows.map (·.day)).dedup).map fun d =>
    (d, dailyRow rows d cutpoints_counts cutpoints_enmo waking_hours)


/-!
## Auxiliary definitions used by the verification statements
-/

/-- The window check as claim C5 states it: count `> 0` epochs in the
forward index window `[i + spike_tolerance, i + min_window_len]` and in
the backward index window `[max(0, i - min_window_len), i - 1]`, both
endpoints included.  This definition follows the words of the spec
sentence, for comparison against `window_check`, which is translated
from the source. -/
def claimC5WindowCheck (data : List ℚ) (spike_tolerance min_window_len window_spike_tolerance i : ℕ) :
    Bool :=
  decide (window_spike_tolerance
      < countGT 0 (pySlice (i + spike_tolerance) (i + min_window_len + 1) data))
  || decide (window_spike_tolerance < countGT 0 (pySlice (i - min_window_len) i data))


/-- The number of epochs with count `> 0` among the indices `j` of
`data` with `lo ≤ j ≤ hi` (an inclusive index interval). -/
def spikesInIdxRange (data : List ℚ) (lo hi : ℕ) : ℕ :=
  (List.range data.length).countP fun j => decide (lo ≤ j ∧ j ≤ hi ∧ 0 < data.getD j 0)

/-- The number of epochs with count `> 0` among the indices `j` of
`data` with `max(0, i - min_window_len) ≤ j ≤ i - 2` (the inclusive
backward window that the source actually inspects; `j + 2 ≤ i` renders
`j ≤ i - 2` without natural-subtraction clamping). -/
def spikesInBackwardWindow (data : List ℚ) (min_window_len i : ℕ) : ℕ :=
  (List.range data.length).countP fun j =>
    decide (i - min_window_len ≤ j ∧ j + 2 ≤ i ∧ 0 < data.getD j 0)


/-- A 180-sample stream at 1 Hz: two motionless minutes followed by one
minute at a different constant level.  With a 2-minute window and
1-minute overlap the scan evaluates the windows `[0, 120)` (motionless:
non-wear) and `[60, 180)` (large std and range on every axis: worn),
which overlap on `[60, 120)`. -/
def overlapStream : List (ℚ × ℚ × ℚ) :=
  List.replicate 120 (0, 0, 0) ++ List.replicate 60 (1, 1, 1)


/-!
## Theorems
-/


set_option maxRecDepth 1000000

/-- Claim C1 (evaluation at the failing input): under the default
configuration a series of 90 zero-count epochs — a maximal zero run of
exactly `min_period_len` terminated by the series ending — comes back
entirely worn (flag 1), because the source's end-of-series trigger
`paxn == len(data -1)` compares `paxn` against `len(data)` and never
fires.  A run of the same length terminated by the window-validity
check is committed (flag 0 over the run, worn afterwards), so the
defect is specifically the end-of-series trigger. -/
theorem choi_end_of_series_run_not_committed :
    weartime_choi2011 (List.replicate 90 0) 0 90 2 30 0 0 = 1
    ∧ weartime_choi2011 (List.replicate 90 0) 0 90 2 30 0 45 = 1
    ∧ weartime_choi2011 (List.replicate 90 0) 0 90 2 30 0 89 = 1
    ∧ weartime_choi2011 (List.replicate 90 0 ++ [1, 0, 1] ++ List.replicate 40 0) 0 90 2 30 0 0 = 0
    ∧ weartime_choi2011 (List.replicate 90 0 ++ [1, 0, 1] ++ List.replicate 40 0) 0 90 2 30 0 89 = 0 :=
  ⟨by decide, by decide, by decide, by decide, by decide⟩

/-- Claim C5 counterexample: on `[0,0,0,0,1,1,0,…,0]` at spike index
`i = 5` with the default `spike_tolerance = 2`, `min_window_len = 30`,
`window_spike_tolerance = 0`, the scan's window check returns `false`
(its backward slice `data[max(0,i-30) : i-1]` stops at index `i-2` and
misses the spike at `i-1 = 4`), while the check as the claim words it
(backward window `[max(0,i-30), i-1]`, endpoint included) fires. -/
theorem choi_window_check_counterexample :
    window_check (List.replicate 4 0 ++ [1, 1] ++ List.replicate 30 0) 2 30 0 5 = false
    ∧ claimC5WindowCheck (List.replicate 4 0 ++ [1, 1] ++ List.replicate 30 0) 2 30 0 5 = true := by
  decide

/-- A slice count rewritten as a count over an index range: the number
of entries `> t` in `l[a:b]` is the number of indices `j < l.length`
with `a ≤ j < b` and `l[j] > t`. -/
theorem countGT_pySlice (t : ℚ) :
    ∀ (l : List ℚ) (a b : ℕ),
      countGT t (pySlice a b l)
        = (List.range l.length).countP fun j => decide (a ≤ j ∧ j < b ∧ t < l.getD j 0)
  | [], a, b => by simp [countGT, pySlice]
  | x :: xs, 0, 0 => by simp [countGT, pySlice]
  | x :: xs, 0, b + 1 => by
    have ih := countGT_pySlice t xs 0 b
    have hslice : pySlice 0 (b + 1) (x :: xs) = x :: pySlice 0 b xs := by
      simp [pySlice]
    rw [hslice, countGT, List.countP_cons, ← countGT]
    rw [List.length_cons, List.range_succ_eq_map, List.countP_cons, List.countP_map]
    have hcong : ((fun j => decide (0 ≤ j ∧ j < b + 1 ∧ t < (x :: xs).getD j 0)) ∘ Nat.succ)
        = fun j => decide (0 ≤ j ∧ j < b ∧ t < xs.getD j 0) := by
      funext j
      simp only [Function.comp_apply, List.getD_cons_succ, decide_eq_decide]
      constructor
      · rintro ⟨h1, h2, h3⟩; exact ⟨Nat.zero_le _, by omega, h3⟩
      · rintro ⟨h1, h2, h3⟩; exact ⟨Nat.zero_le _, by omega, h3⟩
    rw [hcong, ih]
    simp
  | x :: xs, a + 1, b => by
    have ih := countGT_pySlice t xs a (b - 1)
    have hslice : pySlice (a + 1) b (x :: xs) = pySlice a (b - 1) xs := by
      simp [pySlice, Nat.sub_sub, Nat.add_comm 1 a]
    rw [hslice, ih]
    rw [List.length_cons, List.range_succ_eq_map, List.countP_cons, List.countP_map]
    have hcong : ((fun j => decide (a + 1 ≤ j ∧ j < b ∧ t < (x :: xs).getD j 0)) ∘ Nat.succ)
        = fun j => decide (a ≤ j ∧ j < b - 1 ∧ t < xs.getD j 0) := by
      funext j
      simp only [Function.comp_apply, List.getD_cons_succ, decide_eq_decide]
      constructor
      · rintro ⟨h1, h2, h3⟩; exact ⟨by omega, by omega, h3⟩
      · rintro ⟨h1, h2, h3⟩; exact ⟨by omega, by omega, h3⟩
    rw [hcong]
    simp

/-- Claim C5 (amended): at a spike epoch `i ≥ 1` inside a candidate
run, the scan's window check fires iff the forward index window
`[i + spike_tolerance, i + min_window_len]` or the backward index
window `[max(0, i - min_window_len), i - 2]` (the epoch at `i - 1` is
skipped, matching the source's spike allowance) contains more than
`window_spike_tolerance` epochs with count `> 0`. -/
theorem choi_window_check_amended (data : List ℚ)
    (spike_tolerance min_window_len window_spike_tolerance i : ℕ) (hi : 1 ≤ i) :
    window_check data spike_tolerance min_window_len window_spike_tolerance i = true ↔
      (window_spike_tolerance < spikesInIdxRange data (i + spike_tolerance) (i + min_window_len)
       ∨ window_spike_tolerance < spikesInBackwardWindow data min_window_len i) := by
  unfold window_check upstreamWindow downstreamWindow
  rw [countGT_pySlice, countGT_pySlice]
  have hif : (if min_window_len < i then i - min_window_len else 0) = i - min_window_len := by
    split_ifs with h
    · rfl
    · omega
  rw [hif]
  have h1 : (List.countP (fun j => decide (i + spike_tolerance ≤ j ∧ j < i + min_window_len + 1
        ∧ 0 < data.getD j 0)) (List.range data.length))
      = spikesInIdxRange data (i + spike_tolerance) (i + min_window_len) := by
    unfold spikesInIdxRange
    refine List.countP_congr fun j hj => ?_
    simp only [decide_eq_true_eq]
    constructor
    · rintro ⟨a, b, c⟩; exact ⟨a, by omega, c⟩
    · rintro ⟨a, b, c⟩; exact ⟨a, by omega, c⟩
  have h2 : (List.countP (fun j => decide (i - min_window_len ≤ j ∧ j < i - 1
        ∧ 0 < data.getD j 0)) (List.range data.length))
      = spikesInBackwardWindow data min_window_len i := by
    unfold spikesInBackwardWindow
    refine List.countP_congr fun j hj => ?_
    simp only [decide_eq_true_eq]
    constructor
    · rintro ⟨a, b, c⟩; exact ⟨a, by omega, c⟩
    · rintro ⟨a, b, c⟩; exact ⟨a, by omega, c⟩
  rw [h1, h2]
  simp

/-- Witness for the amended claim C5 at the concrete data of the
counterexample and spike index 5. -/
theorem choi_window_check_amended_witness :
    1 ≤ 5
    ∧ (window_check (List.replicate 4 0 ++ [1, 1] ++ List.replicate 30 0) 2 30 0 5 = true ↔
        (0 < spikesInIdxRange (List.replicate 4 0 ++ [1, 1] ++ List.replicate 30 0) 7 35
         ∨ 0 < spikesInBackwardWindow (List.replicate 4 0 ++ [1, 1] ++ List.replicate 30 0) 30 5)) :=
  ⟨by decide,
   choi_window_check_amended (List.replicate 4 0 ++ [1, 1] ++ List.replicate 30 0) 2 30 0 5
     (by decide)⟩

/-- Claim C7 counterexample: with a non-ascending cutpoint triple
`(3, 2, 1)`, and likewise with waking-hours bounds `(30, 50)` outside
`[0, 24)`, `intermediate_to_daily` still produces a daily summary row
(and band values) instead of rejecting the configuration. -/
theorem daily_no_validation_counterexample :
    (intermediate_to_daily [⟨0, 8, 1, 1, 5, 5⟩] (some (3, 2, 1)) none (7, 22)).length = 1
    ∧ (intermediate_to_daily [⟨0, 8, 1, 1, 5, 5⟩] (some (3, 2, 1)) none (7, 22)).map Prod.fst = [0]
    ∧ (intermediate_to_daily [⟨0, 8, 1, 1, 5, 5⟩] (some (3, 2, 1)) (some (3, 2, 1)) (30, 50)).length
        = 1
    ∧ lpa_counts [⟨0, 8, 1, 1, 5, 5⟩] 0 (3, 2, 1) = 0 := by
  decide

/-- Claim C7 (amended): `intermediate_to_daily` performs no
configuration validation; for every input and any cutpoints and
waking-hours bounds it aggregates and returns exactly one row per
distinct day of the input, in order of first appearance. -/
theorem intermediate_to_daily_always_aggregates (rows : List MinuteRow)
    (cutpoints_counts cutpoints_enmo : Option (ℚ × ℚ × ℚ)) (waking_hours : ℕ × ℕ) :
    (intermediate_to_daily rows cutpoints_counts cutpoints_enmo waking_hours).map Prod.fst
      = (rows.map (·.day)).dedup := by
  simp only [intermediate_to_daily, List.map_map]
  exact List.map_id _

/-- Counting over a filtered list never exceeds counting over the
whole list. -/
theorem countP_filter_le (p q : α → Bool) (l : List α) :
    (l.filter q).countP p ≤ l.countP p := by
  rw [List.countP_filter]
  exact List.countP_mono_left fun x _ h => by
    exact (Bool.and_eq_true _ _ ▸ h).1

/-- Claim C9: in every row of the daily summary, the waking-hours
wear-minute totals are bounded by the full-day wear-minute totals, for
both wear algorithms (the waking-hours rows are a filter of the day's
rows). -/
theorem daily_waking_weartime_le (rows : List MinuteRow)
    (cutpoints_counts cutpoints_enmo : Option (ℚ × ℚ × ℚ)) (waking_hours : ℕ × ℕ)
    (d : ℕ) (row : DailyRow)
    (h : (d, row) ∈ intermediate_to_daily rows cutpoints_counts cutpoints_enmo waking_hours) :
    row.weartime_choi_waking ≤ row.weartime_choi
    ∧ row.weartime_vanhees_waking ≤ row.weartime_vanhees := by
  simp only [intermediate_to_daily, List.mem_map] at h
  obtain ⟨d', hd', hEq⟩ := h
  obtain ⟨rfl, rfl⟩ := Prod.mk.injEq .. ▸ hEq
  constructor
  · exact countP_filter_le _ _ _
  · exact countP_filter_le _ _ _

/-- Witness for claim C9 on a one-row input. -/
theorem daily_waking_weartime_le_witness :
    (dailyRow [⟨0, 8, 1, 1, 5, 5⟩] 0 none none (7, 22)).weartime_choi_waking
        ≤ (dailyRow [⟨0, 8, 1, 1, 5, 5⟩] 0 none none (7, 22)).weartime_choi
    ∧ (dailyRow [⟨0, 8, 1, 1, 5, 5⟩] 0 none none (7, 22)).weartime_vanhees_waking
        ≤ (dailyRow [⟨0, 8, 1, 1, 5, 5⟩] 0 none none (7, 22)).weartime_vanhees :=
  daily_waking_weartime_le [⟨0, 8, 1, 1, 5, 5⟩] none none (7, 22) 0 _ (by decide)

/-- Claim C8: for every per-sample triaxial reading, the ENMO value
computed by the pipeline (norm, minus one, pandas clip below at zero,
times 1000) equals `max(sqrt(v² + ml² + ap²) - 1, 0) * 1000`. -/
theorem enmo_pipeline_formula (ts : List (ℝ × ℝ × ℝ)) :
    enmoSeries ts
      = ts.map fun r => max (Real.sqrt (r.1 ^ 2 + r.2.1 ^ 2 + r.2.2 ^ 2) - 1) 0 * 1000 := by
  unfold enmoSeries enmoSample clipLower
  refine List.map_congr_left fun r _ => ?_
  congr 1
  split_ifs with h
  · exact (max_eq_right h.le).symm
  · exact (max_eq_left (not_lt.mp h)).symm

/-- Claim C10 (evaluation at the failing input): with
`round_negative_to_zero = True` the `helper_functions.py` copy of
`calculate_vector_magnitude` errors out (its `clip(lower=0)` raises
`TypeError` on a NumPy array, and the handler exits) while the
`nonwear.py` copy returns normally; with the flag off the two copies
agree on every input. -/
theorem vector_magnitude_copies_diverge :
    helper_calculate_vector_magnitude [((3 : ℝ) / 5, 0, 4 / 5)] true true
      = Except.error "TypeError: clip received an invalid keyword argument, process exited with 1"
    ∧ calculate_vector_magnitude [((3 : ℝ) / 5, 0, 4 / 5)] true true = [0]
    ∧ ∀ (data : List (ℝ × ℝ × ℝ)) (minus_one : Bool),
        helper_calculate_vector_magnitude data minus_one false
          = Except.ok (calculate_vector_magnitude data minus_one false) := by
  refine ⟨rfl, ?_, fun data minus_one => rfl⟩
  unfold calculate_vector_magnitude
  simp only [List.map_cons, List.map_nil, if_true]
  rw [show ((3 : ℝ) / 5) ^ 2 + (0 : ℝ) ^ 2 + ((4 : ℝ) / 5) ^ 2 = 1 by norm_num, Real.sqrt_one]
  norm_num

/-- Claim C6: intensity bands are counted only over the day's rows
whose matching wear flag is 1; the counts bands use the half-open
intervals `(c0, c1]`, `(c1, c2]`, `> c1`, `> c2`, the at-or-above ENMO
bands use `≥` at the cutpoint, and at an upper cutpoint the two metrics
disagree exactly as the source writes it: a worn minute exactly at `c1`
counts as low and not moderate-to-vigorous for counts, but as
moderate-to-vigorous and neither low nor moderate for ENMO; a worn
minute exactly at `c2` counts as moderate and not vigorous for counts,
but as vigorous and not moderate for ENMO. -/
theorem daily_band_conventions (rows : List MinuteRow) (d : ℕ) (c : ℚ × ℚ × ℚ)
    (hasc : c.1 < c.2.1 ∧ c.2.1 < c.2.2) :
    (lpa_counts rows d c = (day_data rows d).countP fun r =>
        decide (c.1 < r.counts_vm ∧ r.counts_vm ≤ c.2.1) && (r.wear_choi == 1))
    ∧ (mpa_counts rows d c = (day_data rows d).countP fun r =>
        decide (c.2.1 < r.counts_vm ∧ r.counts_vm ≤ c.2.2) && (r.wear_choi == 1))
    ∧ (mvpa_counts rows d c = (day_data rows d).countP fun r =>
        decide (c.2.1 < r.counts_vm) && (r.wear_choi == 1))
    ∧ (vpa_counts rows d c = (day_data rows d).countP fun r =>
        decide (c.2.2 < r.counts_vm) && (r.wear_choi == 1))
    ∧ (mvpa_enmo rows d c = (day_data rows d).countP fun r =>
        decide (c.2.1 ≤ r.enmo) && (r.wear_vanhees == 1))
    ∧ (vpa_enmo rows d c = (day_data rows d).countP fun r =>
        decide (c.2.2 ≤ r.enmo) && (r.wear_vanhees == 1))
    ∧ (lpa_counts [⟨d, 8, 1, 1, c.2.1, c.2.1⟩] d c = 1
       ∧ mvpa_counts [⟨d, 8, 1, 1, c.2.1, c.2.1⟩] d c = 0
       ∧ lpa_enmo [⟨d, 8, 1, 1, c.2.1, c.2.1⟩] d c = 0
       ∧ mpa_enmo [⟨d, 8, 1, 1, c.2.1, c.2.1⟩] d c = 0
       ∧ mvpa_enmo [⟨d, 8, 1, 1, c.2.1, c.2.1⟩] d c = 1)
    ∧ (mpa_counts [⟨d, 8, 1, 1, c.2.2, c.2.2⟩] d c = 1
       ∧ vpa_counts [⟨d, 8, 1, 1, c.2.2, c.2.2⟩] d c = 0
       ∧ mpa_enmo [⟨d, 8, 1, 1, c.2.2, c.2.2⟩] d c = 0
       ∧ vpa_enmo [⟨d, 8, 1, 1, c.2.2, c.2.2⟩] d c = 1) := by
  obtain ⟨h1, h2⟩ := hasc
  refine ⟨List.countP_filter .., List.countP_filter .., List.countP_filter ..,
    List.countP_filter .., List.countP_filter .., List.countP_filter .., ?_, ?_⟩
  · simp [lpa_counts, mvpa_counts, lpa_enmo, mpa_enmo, mvpa_enmo,
      day_data_wear_choi, day_data_wear_vanhees, day_data, List.countP_cons,
      h1, h2, le_refl, lt_irrefl]
  · simp [mpa_counts, vpa_counts, mpa_enmo, vpa_enmo,
      day_data_wear_choi, day_data_wear_vanhees, day_data, List.countP_cons,
      h1, h2, le_refl, lt_irrefl]

/-- Witness for claim C6 at cutpoints `(1, 2, 3)` on a one-row
input. -/
theorem daily_band_conventions_witness :
    lpa_counts [⟨0, 8, 1, 1, 2, 2⟩] 0 (1, 2, 3)
      = (day_data [⟨0, 8, 1, 1, 2, 2⟩] 0).countP fun r =>
          decide ((1 : ℚ) < r.counts_vm ∧ r.counts_vm ≤ 2) && (r.wear_choi == 1) :=
  (daily_band_conventions [⟨0, 8, 1, 1, 2, 2⟩] 0 (1, 2, 3) (by norm_num)).1

/-- Claim C3 counterexample: on a one-sample stream (shorter than one
full window at the default configuration) `weartime_vanhees2013`
returns a wear-flag series — the pre-initialized all-worn vector —
rather than failing. -/
theorem vanhees_short_input_counterexample :
    weartime_vanhees2013 [(0, 0, 0)] 100 60 15 3 50 2 2 0 = 1 := by
  show vhLoop [(0, 0, 0)] (60 * (100 * 60)) (3 / 1000) (50 / 1000) 2 2
    (pythonRange [((0 : ℚ), (0 : ℚ), (0 : ℚ))].length (15 * (100 * 60))) (fun _ => 1) 0 = 1
  have hr : pythonRange [((0 : ℚ), (0 : ℚ), (0 : ℚ))].length (15 * (100 * 60)) = [0] := by
    norm_num [pythonRange, List.range'_one]
  rw [hr, vhLoop]
  norm_num [pySlice]

/-- Claim C3 (amended): for every input shorter than one full window
(`window_minutes * Hz * 60` samples) the van-Hees scan breaks before
evaluating any window and returns the all-worn flag vector; the
computation is not fatal. -/
theorem vanhees_short_input_all_worn (data : List (ℚ × ℚ × ℚ))
    (hz min_non_wear_time_window window_overlap : ℕ)
    (std_mg_threshold value_range_mg_threshold : ℚ)
    (std_min_num_axes value_range_min_num_axes : ℕ)
    (h : data.length < min_non_wear_time_window * (hz * 60)) (j : ℕ) :
    weartime_vanhees2013 data hz min_non_wear_time_window window_overlap
      std_mg_threshold value_range_mg_threshold std_min_num_axes value_range_min_num_axes j = 1 := by
  show vhLoop data (min_non_wear_time_window * (hz * 60)) (std_mg_threshold / 1000)
    (value_range_mg_threshold / 1000) std_min_num_axes value_range_min_num_axes
    (pythonRange data.length (window_overlap * (hz * 60))) (fun _ => 1) j = 1
  cases hrange : pythonRange data.length (window_overlap * (hz * 60)) with
  | nil => rfl
  | cons i rest =>
    rw [vhLoop]
    have hlen : (pySlice i (i + min_non_wear_time_window * (hz * 60)) data).length
        < min_non_wear_time_window * (hz * 60) := by
      have hle : (pySlice i (i + min_non_wear_time_window * (hz * 60)) data).length
          ≤ data.length := by
        simp only [pySlice, List.length_take, List.length_drop]
        exact le_trans (min_le_right _ _) (Nat.sub_le _ _)
      omega
    rw [if_pos hlen]

/-- Witness for the amended claim C3 on a one-sample stream. -/
theorem vanhees_short_input_all_worn_witness :
    ([((0 : ℚ), (0 : ℚ), (0 : ℚ))].length < 60 * (100 * 60))
    ∧ weartime_vanhees2013 [(0, 0, 0)] 100 60 15 3 50 2 2 5 = 1 :=
  ⟨by norm_num,
   vanhees_short_input_all_worn [(0, 0, 0)] 100 60 15 3 50 2 2 (by norm_num) 5⟩

/-- A slice assignment writes 0 inside its span. -/
theorem zeroSlice_at (s e : ℕ) (v : ℕ → ℕ) (j : ℕ) (h1 : s ≤ j) (h2 : j < e) :
    zeroSlice s e v j = 0 := by
  unfold zeroSlice
  exact if_pos ⟨h1, h2⟩

/-- A slice assignment never overwrites an existing 0. -/
theorem zeroSlice_zero (s e : ℕ) (v : ℕ → ℕ) (j : ℕ) (h : v j = 0) :
    zeroSlice s e v j = 0 := by
  unfold zeroSlice
  split <;> simp [h]

/-- Processing a window never overwrites an existing 0: the loop body
only writes 0. -/
theorem vhProcessWindow_zero (data : List (ℚ × ℚ × ℚ)) (std_t range_t : ℚ)
    (sa ra : ℕ) (s e : ℕ) (v : ℕ → ℕ) (j : ℕ) (h : v j = 0) :
    vhProcessWindow data std_t range_t sa ra s e v j = 0 := by
  unfold vhProcessWindow
  split <;> split <;> simp [zeroSlice_zero, h]

/-- A window satisfying either non-wear criterion zeroes every index
of its span. -/
theorem vhProcessWindow_marks (data : List (ℚ × ℚ × ℚ)) (std_t range_t : ℚ)
    (sa ra : ℕ) (s e : ℕ) (v : ℕ → ℕ) (j : ℕ) (h1 : s ≤ j) (h2 : j < e)
    (hcrit : sa ≤ stdBelowCount (pySlice s e data) std_t
           ∨ ra ≤ rangeBelowCount (pySlice s e data) range_t) :
    vhProcessWindow data std_t range_t sa ra s e v j = 0 := by
  unfold vhProcessWindow
  split
  · split
    · exact zeroSlice_zero _ _ _ _ (zeroSlice_at _ _ _ _ h1 h2)
    · exact zeroSlice_at _ _ _ _ h1 h2
  · split
    · exact zeroSlice_at _ _ _ _ h1 h2
    · rename_i hrng hstd
      rcases hcrit with hc | hc
      · exact absurd hc hstd
      · exact absurd hc hrng

/-- The scan loop never resets a 0 back to 1, whatever the remaining
windows decide. -/
theorem vhLoop_zero (data : List (ℚ × ℚ × ℚ)) (wnd : ℕ) (std_t range_t : ℚ) (sa ra : ℕ) :
    ∀ (starts : List ℕ) (v : ℕ → ℕ) (j : ℕ), v j = 0 →
      vhLoop data wnd std_t range_t sa ra starts v j = 0
  | [], v, j, h => h
  | i :: rest, v, j, h => by
    rw [vhLoop]
    split
    · exact h
    · exact vhLoop_zero data wnd std_t range_t sa ra rest _ j
        (vhProcessWindow_zero data std_t range_t sa ra i (i + wnd) v j h)

/-- If some start in the (ascending) start list fits a full window
containing index `j` and that window satisfies a non-wear criterion,
the loop's result at `j` is 0 — the `break` can only happen at starts
past the last full window. -/
theorem vhLoop_marks (data : List (ℚ × ℚ × ℚ)) (wnd : ℕ) (std_t range_t : ℚ) (sa ra : ℕ) :
    ∀ (starts : List ℕ) (v : ℕ → ℕ) (i j : ℕ), starts.Sorted (· ≤ ·) → i ∈ starts →
      i + wnd ≤ data.length → i ≤ j → j < i + wnd →
      (sa ≤ stdBelowCount (pySlice i (i + wnd) data) std_t
       ∨ ra ≤ rangeBelowCount (pySlice i (i + wnd) data) range_t) →
      vhLoop data wnd std_t range_t sa ra starts v j = 0
  | [], _, i, _, _, hmem, _, _, _, _ => absurd hmem (List.not_mem_nil i)
  | a :: rest, v, i, j, hsorted, hmem, hfit, hij, hji, hcrit => by
    rw [List.sorted_cons] at hsorted
    have hafit : a + wnd ≤ data.length := by
      rcases List.mem_cons.mp hmem with rfl | hmem'
      · exact hfit
      · have := hsorted.1 i hmem'
        omega
    have hnobreak : ¬ (pySlice a (a + wnd) data).length < wnd := by
      simp only [pySlice, List.length_take, List.length_drop]
      omega
    rw [vhLoop, if_neg hnobreak]
    rcases List.mem_cons.mp hmem with rfl | hmem'
    · exact vhLoop_zero data wnd std_t range_t sa ra rest _ j
        (vhProcessWindow_marks data std_t range_t sa ra i (i + wnd) v j hij hji hcrit)
    · exact vhLoop_marks data wnd std_t range_t sa ra rest _ i j hsorted.2 hmem' hfit hij hji hcrit

/-- `List.range'` with any step is ascending. -/
theorem sorted_range' (s k step : ℕ) : (List.range' s k step).Sorted (· ≤ ·) := by
  induction k generalizing s with
  | zero => simp
  | succ k ih =>
    rw [List.range'_succ, List.sorted_cons]
    refine ⟨fun b hb => ?_, ih _⟩
    rw [List.mem_range'] at hb
    obtain ⟨i, hi, rfl⟩ := hb
    omega

/-- Python `range(0, n, step)` is ascending. -/
theorem sorted_pythonRange (n step : ℕ) : (pythonRange n step).Sorted (· ≤ ·) := by
  unfold pythonRange
  split
  · exact List.sorted_nil
  · exact sorted_range' _ _ _

/-- Claim C2 (amended): overlap resolution in `weartime_vanhees2013`
is union-toward-non-wear.  A window evaluated as worn writes nothing,
so a non-wear marking is never reset; every sample covered by any
evaluated full window that satisfies a non-wear criterion has final
flag 0, regardless of later overlapping windows. -/
theorem vanhees_union_toward_nonwear (data : List (ℚ × ℚ × ℚ))
    (hz min_non_wear_time_window window_overlap : ℕ)
    (std_mg_threshold value_range_mg_threshold : ℚ)
    (std_min_num_axes value_range_min_num_axes : ℕ) (i j : ℕ)
    (hmem : i ∈ pythonRange data.length (window_overlap * (hz * 60)))
    (hfit : i + min_non_wear_time_window * (hz * 60) ≤ data.length)
    (hij : i ≤ j) (hji : j < i + min_non_wear_time_window * (hz * 60))
    (hcrit : std_min_num_axes
        ≤ stdBelowCount (pySlice i (i + min_non_wear_time_window * (hz * 60)) data)
            (std_mg_threshold / 1000)
      ∨ value_range_min_num_axes
        ≤ rangeBelowCount (pySlice i (i + min_non_wear_time_window * (hz * 60)) data)
            (value_range_mg_threshold / 1000)) :
    weartime_vanhees2013 data hz min_non_wear_time_window window_overlap
      std_mg_threshold value_range_mg_threshold std_min_num_axes value_range_min_num_axes j = 0 :=
  vhLoop_marks data (min_non_wear_time_window * (hz * 60)) (std_mg_threshold / 1000)
    (value_range_mg_threshold / 1000) std_min_num_axes value_range_min_num_axes
    (pythonRange data.length (window_overlap * (hz * 60))) (fun _ => 1) i j
    (sorted_pythonRange _ _) hmem hfit hij hji hcrit

/-- `np.std` of a column with zero variance. -/
theorem npStd_of_var_zero (l : List ℚ) (h : npVar l = 0) : npStd l = 0 := by
  unfold npStd
  rw [h]
  simp

/-- `np.std` of a column whose variance is a rational square. -/
theorem npStd_of_var_sq (l : List ℚ) (q : ℚ) (h0 : 0 ≤ q) (h : npVar l = q ^ 2) :
    npStd l = (q : ℝ) := by
  unfold npStd
  rw [h]
  push_cast
  exact Real.sqrt_sq (by exact_mod_cast h0)

/-- Mean of a constant column. -/
theorem npMean_replicate (n : ℕ) (q : ℚ) (hn : n ≠ 0) : npMean (List.replicate n q) = q := by
  unfold npMean
  rw [List.sum_replicate, List.length_replicate, nsmul_eq_mul]
  have : (n : ℚ) ≠ 0 := Nat.cast_ne_zero.mpr hn
  field_simp

/-- Variance of a constant column. -/
theorem npVar_replicate (n : ℕ) (q : ℚ) (hn : n ≠ 0) : npVar (List.replicate n q) = 0 := by
  unfold npVar
  rw [npMean_replicate n q hn, List.map_replicate]
  simp

/-- Folding `max` over a constant list. -/
theorem foldl_max_replicate (n : ℕ) (a b : ℚ) :
    List.foldl max a (List.replicate n b) = if n = 0 then a else max a b := by
  induction n generalizing a with
  | zero => simp
  | succ n ih =>
    rw [List.replicate_succ, List.foldl_cons, ih (max a b)]
    split <;> simp [max_assoc]

/-- Folding `min` over a constant list. -/
theorem foldl_min_replicate (n : ℕ) (a b : ℚ) :
    List.foldl min a (List.replicate n b) = if n = 0 then a else min a b := by
  induction n generalizing a with
  | zero => simp
  | succ n ih =>
    rw [List.replicate_succ, List.foldl_cons, ih (min a b)]
    split <;> simp [min_assoc]

/-- Value range of a constant column. -/
theorem npPtp_replicate (n : ℕ) (q : ℚ) : npPtp (List.replicate n q) = 0 := by
  unfold npPtp
  cases n with
  | zero => simp
  | succ n =>
    rw [foldl_max_replicate, foldl_min_replicate]
    simp [List.replicate_succ]

/-- Value range of the two-level column of `overlapStream`'s second
window. -/
theorem npPtp_mixed :
    npPtp (List.replicate 60 (0 : ℚ) ++ List.replicate 60 1) = 1 := by
  unfold npPtp
  rw [show (List.replicate 60 (0 : ℚ)) = 0 :: List.replicate 59 0 from List.replicate_succ 0 59]
  simp only [List.cons_append, List.headD_cons, List.foldl_cons, List.foldl_append]
  rw [max_self, min_self, foldl_max_replicate, foldl_min_replicate]
  norm_num
  rw [foldl_max_replicate, foldl_min_replicate]
  norm_num

/-- The first scanned window of `overlapStream`. -/
theorem overlapStream_window0 :
    pySlice 0 120 overlapStream = List.replicate 120 ((0 : ℚ), (0 : ℚ), (0 : ℚ)) := by
  unfold overlapStream pySlice
  rw [List.drop_zero, List.take_left' (List.length_replicate 120 _)]

/-- The second scanned window of `overlapStream`, overlapping the
first on `[60, 120)`. -/
theorem overlapStream_window60 :
    pySlice 60 180 overlapStream
      = List.replicate 60 ((0 : ℚ), (0 : ℚ), (0 : ℚ)) ++ List.replicate 60 (1, 1, 1) := by
  unfold overlapStream pySlice
  rw [List.drop_append_eq_append_drop]
  rw [List.drop_replicate, List.length_replicate]
  norm_num

/-- Variance of the two-level column of `overlapStream`'s second
window: `(1/2)²`. -/
theorem mixedCol_var :
    npVar (List.replicate 60 (0 : ℚ) ++ List.replicate 60 1) = (1 / 2) ^ 2 := by
  have hmean : npMean (List.replicate 60 (0 : ℚ) ++ List.replicate 60 1) = 1 / 2 := by
    unfold npMean
    rw [List.sum_append, List.sum_replicate, List.sum_replicate, List.length_append,
      List.length_replicate, List.length_replicate]
    norm_num
  unfold npVar
  rw [hmean, List.map_append, List.map_replicate, List.map_replicate, List.sum_append,
    List.sum_replicate, List.sum_replicate, List.length_append, List.length_replicate,
    List.length_replicate]
  norm_num [nsmul_eq_mul]

/-- The first window is motionless: all three axes fall below the
std threshold, so the std criterion marks it non-wear. -/
theorem overlapStream_window0_std :
    stdBelowCount (pySlice 0 120 overlapStream) (3 / 1000) = 3 := by
  unfold stdBelowCount
  rw [overlapStream_window0]
  unfold col1 col2 col3
  rw [List.map_replicate, List.map_replicate, List.map_replicate]
  rw [npStd_of_var_zero _ (npVar_replicate 120 _ (by norm_num))]
  have hpos : (0 : ℝ) < ((3 / 1000 : ℚ) : ℝ) := by
    rw [Rat.cast_pos]
    norm_num
  rw [if_pos hpos]

/-- The first window also satisfies the value-range criterion. -/
theorem overlapStream_window0_range :
    rangeBelowCount (pySlice 0 120 overlapStream) (50 / 1000) = 3 := by
  unfold rangeBelowCount
  rw [overlapStream_window0]
  unfold col1 col2 col3
  rw [List.map_replicate, List.map_replicate, List.map_replicate]
  rw [npPtp_replicate]
  norm_num

/-- The second window's std is 1/2 g on every axis, far above the
3 mg threshold: the std criterion does not fire. -/
theorem overlapStream_window60_std :
    stdBelowCount (pySlice 60 180 overlapStream) (3 / 1000) = 0 := by
  unfold stdBelowCount
  rw [overlapStream_window60]
  unfold col1 col2 col3
  simp only [List.map_append, List.map_replicate]
  rw [npStd_of_var_sq _ (1 / 2) (by norm_num) mixedCol_var]
  have hneg : ¬ (((1 / 2 : ℚ) : ℝ) < ((3 / 1000 : ℚ) : ℝ)) := by
    rw [Rat.cast_lt]
    norm_num
  rw [if_neg hneg]

/-- The second window's value range is 1 g on every axis, far above
the 50 mg threshold: the range criterion does not fire. -/
theorem overlapStream_window60_range :
    rangeBelowCount (pySlice 60 180 overlapStream) (50 / 1000) = 0 := by
  unfold rangeBelowCount
  rw [overlapStream_window60]
  unfold col1 col2 col3
  simp only [List.map_append, List.map_replicate]
  rw [npPtp_mixed]
  norm_num

/-- Claim C2 counterexample: in `overlapStream` the window `[0, 120)`
satisfies the std criterion and the later overlapping window
`[60, 180)` is evaluated as worn, yet the overlapped sample 60 ends
with flag 0 — the later worn window does not overwrite the earlier
non-wear marking back to 1, contradicting the claimed last-write-wins
overwrite. -/
theorem vanhees_overwrite_counterexample :
    2 ≤ stdBelowCount (pySlice 0 120 overlapStream) (3 / 1000)
    ∧ ¬ 2 ≤ stdBelowCount (pySlice 60 180 overlapStream) (3 / 1000)
    ∧ ¬ 2 ≤ rangeBelowCount (pySlice 60 180 overlapStream) (50 / 1000)
    ∧ weartime_vanhees2013 overlapStream 1 2 1 3 50 2 2 60 = 0 := by
  refine ⟨?_, ?_, ?_, ?_⟩
  · rw [overlapStream_window0_std]
    norm_num
  · rw [overlapStream_window60_std]
    norm_num
  · rw [overlapStream_window60_range]
    norm_num
  · exact vhLoop_marks overlapStream (2 * (1 * 60)) (3 / 1000) (50 / 1000) 2 2
      (pythonRange overlapStream.length (1 * (1 * 60))) (fun _ => 1) 0 60
      (sorted_pythonRange _ _) (by decide) (by decide) (by norm_num) (by norm_num)
      (Or.inl (by rw [show (0 + 2 * (1 * 60)) = 120 from by norm_num,
        overlapStream_window0_std]; norm_num))

/-- Witness for the amended claim C2: sample 30 of `overlapStream`,
covered by the criterion-satisfying window starting at 0. -/
theorem vanhees_union_toward_nonwear_witness :
    (0 ∈ pythonRange overlapStream.length (1 * (1 * 60)))
    ∧ weartime_vanhees2013 overlapStream 1 2 1 3 50 2 2 30 = 0 :=
  ⟨by decide,
   vanhees_union_toward_nonwear overlapStream 1 2 1 3 50 2 2 0 30
     (by decide) (by decide) (by norm_num) (by norm_num)
     (Or.inl (by rw [show (0 + 2 * (1 * 60)) = 120 from by norm_num,
       overlapStream_window0_std]; norm_num))⟩

/-- Chunking the empty list. -/
theorem chunksOf_nil (n : ℕ) : chunksOf n ([] : List α) = [] := by
  simp [chunksOf]

/-- Unfolding one chunk. -/
theorem chunksOf_cons {n : ℕ} (hn : n ≠ 0) {l : List α} (hl : l ≠ []) :
    chunksOf n l = l.take n :: chunksOf n (l.drop n) := by
  obtain ⟨k, rfl⟩ := Nat.exists_eq_succ_of_ne_zero hn
  obtain ⟨x, xs, rfl⟩ := List.exists_cons_of_ne_nil hl
  rw [chunksOf]

/-- Chunks concatenate back to the original list. -/
theorem flatten_chunksOf (n : ℕ) (l : List α) (hn : n ≠ 0) : (chunksOf n l).flatten = l := by
  induction n, l using chunksOf.induct with
  | case1 n => simp [chunksOf_nil]
  | case2 x xs => exact absurd rfl hn
  | case3 n x xs ih =>
    rw [chunksOf_cons hn (List.cons_ne_nil x xs), List.flatten_cons, ih (Nat.succ_ne_zero n)]
    exact List.take_append_drop _ _

/-- A prefix of the chunk list is the chunking of a prefix. -/
theorem chunksOf_take (n : ℕ) (hn : n ≠ 0) :
    ∀ (m : ℕ) (l : List α), (chunksOf n l).take m = chunksOf n (l.take (n * m))
  | 0, l => by simp [chunksOf_nil]
  | m + 1, [] => by simp [chunksOf_nil]
  | m + 1, x :: xs => by
    have hl : (x :: xs) ≠ [] := List.cons_ne_nil x xs
    rw [chunksOf_cons hn hl, List.take_succ_cons, chunksOf_take n hn m ((x :: xs).drop n)]
    have htne : (x :: xs).take (n * (m + 1)) ≠ [] := by
      rw [Ne, List.take_eq_nil_iff]
      push_neg
      exact ⟨Nat.mul_ne_zero hn (Nat.succ_ne_zero m), hl⟩
    rw [chunksOf_cons hn htne, List.take_take, List.drop_take]
    have h1 : n ⊓ (n * (m + 1)) = n := by
      rw [min_eq_left]
      exact Nat.le_mul_of_pos_right n (Nat.succ_pos m)
    have h2 : n * (m + 1) - n = n * m := by
      rw [Nat.mul_succ]
      omega
    rw [h1, h2]

/-- A suffix of the chunk list is the chunking of a suffix. -/
theorem chunksOf_drop (n : ℕ) (hn : n ≠ 0) :
    ∀ (m : ℕ) (l : List α), (chunksOf n l).drop m = chunksOf n (l.drop (n * m))
  | 0, l => by simp
  | m + 1, [] => by simp [chunksOf_nil]
  | m + 1, x :: xs => by
    have hl : (x :: xs) ≠ [] := List.cons_ne_nil x xs
    rw [chunksOf_cons hn hl, List.drop_succ_cons, chunksOf_drop n hn m ((x :: xs).drop n),
      List.drop_drop]
    have h2 : n + n * m = n * (m + 1) := by
      rw [Nat.mul_succ]
      omega
    rw [h2]

/-- Chunking commutes with `map`. -/
theorem chunksOf_map (f : α → β) (n : ℕ) (l : List α) :
    chunksOf n (l.map f) = (chunksOf n l).map (List.map f) := by
  induction n, l using chunksOf.induct with
  | case1 n => simp [chunksOf_nil]
  | case2 x xs => simp [chunksOf, List.map_cons]
  | case3 n x xs ih =>
    rw [List.map_cons, chunksOf, ← List.map_cons f x xs, ← List.map_take, ← List.map_drop, ih,
      chunksOf_cons (Nat.succ_ne_zero n) (List.cons_ne_nil x xs)]
    simp

/-- Chunking twice (first into size `n`, then the chunk list into
size `m`) is chunking once into size `n * m` and re-chunking each
block: the 60 s buckets of the 1 Hz series line up with the
`Hz * 60`-sample minutes of the native stream. -/
theorem chunksOf_chunksOf (n m : ℕ) (hn : n ≠ 0) (hm : m ≠ 0) :
    ∀ l : List α, chunksOf m (chunksOf n l) = (chunksOf (n * m) l).map (chunksOf n)
  | [] => by simp [chunksOf_nil]
  | x :: xs => by
    have hl : (x :: xs) ≠ [] := List.cons_ne_nil x xs
    have hnm : n * m ≠ 0 := Nat.mul_ne_zero hn hm
    have hchne : chunksOf n (x :: xs) ≠ [] := by
      rw [chunksOf_cons hn hl]
      exact List.cons_ne_nil _ _
    rw [chunksOf_cons hm hchne, chunksOf_take n hn m (x :: xs), chunksOf_drop n hn m (x :: xs),
      chunksOf_chunksOf n m hn hm ((x :: xs).drop (n * m)),
      chunksOf_cons hnm hl, List.map_cons]
  termination_by l => l.length
  decreasing_by
    simp only [List.length_drop]
    have : n * m ≠ 0 := Nat.mul_ne_zero hn hm
    simp only [List.length_cons]
    omega

/-- Every produced chunk is nonempty. -/
theorem mem_chunksOf_ne_nil {n : ℕ} (hn : n ≠ 0) {l : List α} {c : List α}
    (hc : c ∈ chunksOf n l) : c ≠ [] := by
  induction n, l using chunksOf.induct with
  | case1 n => simp [chunksOf_nil] at hc
  | case2 x xs => exact absurd rfl hn
  | case3 n x xs ih =>
    rw [chunksOf_cons hn (List.cons_ne_nil x xs)] at hc
    rcases List.mem_cons.mp hc with rfl | hc'
    · rw [Ne, List.take_eq_nil_iff]
      push_neg
      exact ⟨hn, List.cons_ne_nil x xs⟩
    · exact ih (Nat.succ_ne_zero n) hc'

/-- A `min`-fold is bounded by its initial value. -/
theorem foldl_min_le_init : ∀ (xs : List ℕ) (x : ℕ), xs.foldl min x ≤ x
  | [], _ => le_refl _
  | y :: ys, x => le_trans (foldl_min_le_init ys (min x y)) (min_le_left x y)

/-- A `min`-fold is bounded by every list element. -/
theorem foldl_min_le_mem : ∀ (xs : List ℕ) (x y : ℕ), y ∈ xs → xs.foldl min x ≤ y
  | [], _, y, h => absurd h (List.not_mem_nil y)
  | z :: zs, x, y, h => by
    rcases List.mem_cons.mp h with rfl | h'
    · exact le_trans (foldl_min_le_init zs (min x y)) (min_le_right x y)
    · exact foldl_min_le_mem zs (min x z) y h'

/-- A `min`-fold equals its initial value or some list element. -/
theorem foldl_min_attained : ∀ (xs : List ℕ) (x : ℕ),
    xs.foldl min x = x ∨ ∃ y ∈ xs, xs.foldl min x = y
  | [], _ => Or.inl rfl
  | z :: zs, x => by
    rcases foldl_min_attained zs (min x z) with h | ⟨y, hy, h⟩
    · rcases min_choice x z with hmin | hmin
      · exact Or.inl (by rw [List.foldl_cons, h, hmin])
      · exact Or.inr ⟨z, List.mem_cons_self z zs, by rw [List.foldl_cons, h, hmin]⟩
    · exact Or.inr ⟨y, List.mem_cons_of_mem z hy, by rw [List.foldl_cons, h]⟩

/-- The minimum of a 0/1 group is 0 or 1. -/
theorem groupMin_mem01 (c : List ℕ) (h01 : ∀ x ∈ c, x = 0 ∨ x = 1) :
    groupMin c = 0 ∨ groupMin c = 1 := by
  cases c with
  | nil => exact Or.inr rfl
  | cons x xs =>
    show xs.foldl min x = 0 ∨ xs.foldl min x = 1
    rcases foldl_min_attained xs x with h | ⟨y, hy, h⟩
    · rw [h]
      exact h01 x (List.mem_cons_self x xs)
    · rw [h]
      exact h01 y (List.mem_cons_of_mem x hy)

/-- The minimum of a 0/1 group is 1 exactly when every element
is 1. -/
theorem groupMin_eq_one_iff (c : List ℕ) (h01 : ∀ x ∈ c, x = 0 ∨ x = 1) :
    groupMin c = 1 ↔ ∀ x ∈ c, x = 1 := by
  cases c with
  | nil => simp [groupMin]
  | cons x xs =>
    show xs.foldl min x = 1 ↔ _
    constructor
    · intro h y hy
      rcases List.mem_cons.mp hy with rfl | hy'
      · have := foldl_min_le_init xs y
        rcases h01 y (List.mem_cons_self y xs) with h0 | h1
        · omega
        · exact h1
      · have := foldl_min_le_mem xs x y hy'
        rcases h01 y (List.mem_cons_of_mem x hy') with h0 | h1
        · omega
        · exact h1
    · intro hall
      rcases foldl_min_attained xs x with h | ⟨y, hy, h⟩
      · rw [h]
        exact hall x (List.mem_cons_self x xs)
      · rw [h]
        exact hall y (List.mem_cons_of_mem x hy)

/-- A 0/1 list sums to at most its length. -/
theorem sum_le_length_of_01 (c : List ℕ) (h01 : ∀ x ∈ c, x = 0 ∨ x = 1) :
    c.sum ≤ c.length := by
  induction c with
  | nil => simp
  | cons x xs ih =>
    rw [List.sum_cons, List.length_cons]
    have hx := h01 x (List.mem_cons_self x xs)
    have := ih fun y hy => h01 y (List.mem_cons_of_mem x hy)
    omega

/-- A 0/1 list containing a 0 sums to less than its length. -/
theorem sum_lt_length_of_zero_mem (c : List ℕ) (h01 : ∀ x ∈ c, x = 0 ∨ x = 1)
    (h0 : ∃ x ∈ c, x = 0) : c.sum < c.length := by
  induction c with
  | nil => simp at h0
  | cons x xs ih =>
    rw [List.sum_cons, List.length_cons]
    have hx := h01 x (List.mem_cons_self x xs)
    have hle := sum_le_length_of_01 xs fun y hy => h01 y (List.mem_cons_of_mem x hy)
    rcases h0 with ⟨z, hz, rfl⟩
    rcases List.mem_cons.mp hz with rfl | hz'
    · omega
    · have := ih (fun y hy => h01 y (List.mem_cons_of_mem x hy)) ⟨0, hz', rfl⟩
      omega

/-- An all-1 list sums to its length. -/
theorem sum_eq_length_of_all_one (c : List ℕ) (hall : ∀ x ∈ c, x = 1) :
    c.sum = c.length := by
  induction c with
  | nil => simp
  | cons x xs ih =>
    rw [List.sum_cons, List.length_cons, hall x (List.mem_cons_self x xs),
      ih fun y hy => hall y (List.mem_cons_of_mem x hy)]
    omega

/-- The floored mean of a nonempty all-1 bucket is 1. -/
theorem floorMean_eq_one (c : List ℕ) (hne : c ≠ []) (hall : ∀ x ∈ c, x = 1) :
    floorMean c = 1 := by
  unfold floorMean
  rw [sum_eq_length_of_all_one c hall]
  have hlen : (c.length : ℚ) ≠ 0 := by
    rw [Nat.cast_ne_zero]
    exact fun h => hne (List.length_eq_zero.mp h)
  rw [div_self hlen]
  exact Int.floor_one

/-- The floored mean of a nonempty 0/1 bucket with a 0 is 0. -/
theorem floorMean_eq_zero (c : List ℕ) (hne : c ≠ []) (h01 : ∀ x ∈ c, x = 0 ∨ x = 1)
    (hnot : ¬ ∀ x ∈ c, x = 1) : floorMean c = 0 := by
  unfold floorMean
  have h0 : ∃ x ∈ c, x = 0 := by
    push_neg at hnot
    obtain ⟨x, hx, hx1⟩ := hnot
    rcases h01 x hx with h | h
    · exact ⟨x, hx, h⟩
    · exact absurd h hx1
  have hlt : c.sum < c.length := sum_lt_length_of_zero_mem c h01 h0
  have hlenpos : (0 : ℚ) < (c.length : ℚ) := by
    rw [Nat.cast_pos]
    exact List.length_pos.mpr hne
  rw [Int.floor_eq_zero_iff, Set.mem_Ico]
  constructor
  · exact div_nonneg (Nat.cast_nonneg _) (le_of_lt hlenpos)
  · rw [div_lt_one hlenpos]
    exact_mod_cast hlt

/-- Claim C4: a minute bucket of the combined 60-second output has
van-Hees wear flag 1 iff every native-rate sample falling in that
minute (the corresponding `Hz * 60`-sample chunk) has per-sample flag
1, and otherwise the flag is 0 — the flag is propagated as the minimum
over each 1-second bucket followed by floor-of-mean over the minute. -/
theorem wear_vanhees_60s_spec (hz : ℕ) (flags : List ℕ) (j : ℕ) (hhz : hz ≠ 0)
    (hflags : ∀ f ∈ flags, f = 0 ∨ f = 1)
    (hj : j < (wear_vanhees_60s hz flags).length) :
    ((wear_vanhees_60s hz flags).getD j 0 = 1
        ↔ ∀ f ∈ (chunksOf (hz * 60) flags).getD j [], f = 1)
    ∧ (¬ (∀ f ∈ (chunksOf (hz * 60) flags).getD j [], f = 1)
        → (wear_vanhees_60s hz flags).getD j 0 = 0) := by
  have h60 : (60 : ℕ) ≠ 0 := by norm_num
  have hnm : hz * 60 ≠ 0 := Nat.mul_ne_zero hhz h60
  have key : wear_vanhees_60s hz flags
      = (chunksOf (hz * 60) flags).map
          (fun m => floorMean ((chunksOf hz m).map groupMin)) := by
    unfold wear_vanhees_60s wear_vanhees_1s
    rw [chunksOf_map groupMin 60 (chunksOf hz flags), chunksOf_chunksOf hz 60 hhz h60 flags,
      List.map_map, List.map_map]
    rfl
  have hjL : j < (chunksOf (hz * 60) flags).length := by
    rw [key, List.length_map] at hj
    exact hj
  set M := (chunksOf (hz * 60) flags).getD j [] with hM
  have hMget : M = (chunksOf (hz * 60) flags)[j] := by
    rw [hM]
    exact List.getD_eq_getElem _ _ hjL
  have hval : (wear_vanhees_60s hz flags).getD j 0
      = floorMean ((chunksOf hz M).map groupMin) := by
    rw [key, List.getD_eq_getElem _ _ (by rw [List.length_map]; exact hjL), List.getElem_map,
      hMget]
  have hMmem : M ∈ chunksOf (hz * 60) flags := by
    rw [hMget]
    exact List.getElem_mem hjL
  have hMne : M ≠ [] := mem_chunksOf_ne_nil hnm hMmem
  have hM01 : ∀ x ∈ M, x = 0 ∨ x = 1 := by
    intro x hx
    apply hflags
    rw [← flatten_chunksOf (hz * 60) flags hnm]
    exact List.mem_flatten.mpr ⟨M, hMmem, hx⟩
  have hmins_ne : (chunksOf hz M).map groupMin ≠ [] := by
    have hne : chunksOf hz M ≠ [] := by
      rw [chunksOf_cons hhz hMne]
      exact List.cons_ne_nil _ _
    exact fun h => hne (List.map_eq_nil_iff.mp h)
  have hmem_of_chunk : ∀ c ∈ chunksOf hz M, ∀ z ∈ c, z ∈ M := by
    intro c hc z hz'
    rw [← flatten_chunksOf hz M hhz]
    exact List.mem_flatten.mpr ⟨c, hc, hz'⟩
  have hmins01 : ∀ y ∈ (chunksOf hz M).map groupMin, y = 0 ∨ y = 1 := by
    intro y hy
    obtain ⟨c, hc, rfl⟩ := List.mem_map.mp hy
    exact groupMin_mem01 c fun x hx => hM01 x (hmem_of_chunk c hc x hx)
  have hiff : (∀ y ∈ (chunksOf hz M).map groupMin, y = 1) ↔ ∀ x ∈ M, x = 1 := by
    constructor
    · intro h x hx
      rw [← flatten_chunksOf hz M hhz] at hx
      obtain ⟨c, hc, hxc⟩ := List.mem_flatten.mp hx
      have h1 : groupMin c = 1 := h _ (List.mem_map_of_mem groupMin hc)
      exact (groupMin_eq_one_iff c fun z hz' => hM01 z (hmem_of_chunk c hc z hz')).mp h1 x hxc
    · intro h y hy
      obtain ⟨c, hc, rfl⟩ := List.mem_map.mp hy
      exact (groupMin_eq_one_iff c fun z hz' => hM01 z (hmem_of_chunk c hc z hz')).mpr
        (fun x hx => h x (hmem_of_chunk c hc x hx))
  rw [hval]
  constructor
  · constructor
    · intro h1
      by_contra hnot
      have h0 := floorMean_eq_zero _ hmins_ne hmins01 fun hall => hnot (hiff.mp hall)
      rw [h0] at h1
      exact absurd h1 (by norm_num)
    · intro hall
      exact floorMean_eq_one _ hmins_ne (hiff.mpr hall)
  · intro hnot
    exact floorMean_eq_zero _ hmins_ne hmins01 fun hall => hnot (hiff.mp hall)

/-- Witness for claim C4: a one-sample stream at 1 Hz whose single
flag is 1. -/
theorem wear_vanhees_60s_spec_witness :
    ((1 : ℕ) ≠ 0 ∧ (∀ f ∈ [1], f = 0 ∨ f = 1) ∧ 0 < (wear_vanhees_60s 1 [1]).length)
    ∧ (((wear_vanhees_60s 1 [1]).getD 0 0 = 1
          ↔ ∀ f ∈ (chunksOf (1 * 60) [1]).getD 0 [], f = 1)
       ∧ (¬ (∀ f ∈ (chunksOf (1 * 60) [1]).getD 0 [], f = 1)
          → (wear_vanhees_60s 1 [1]).getD 0 0 = 0)) := by
  have hlen : 0 < (wear_vanhees_60s 1 [1]).length := by
    simp [wear_vanhees_60s, wear_vanhees_1s, chunksOf]
  exact ⟨⟨one_ne_zero, by decide, hlen⟩,
    wear_vanhees_60s_spec 1 [1] 0 one_ne_zero (by decide) hlen⟩

end PaProc
